import Mathlib

/-!
Shallow embedding of the AtomSim bonding / molecule-identification / energy
engine, translated from the TypeScript sources:

* `src/app/simulation/autonomous-chemistry.engine.ts` (the chemistry engine),
* the `SimulationComponent` contained in `src/app/simulation/molecular-recipes.interface.ts`
  (the current component: manual bonding, valence guard, `identifyMoleculeType`
  table, `addSystemEnergy`, `identifyMolecules`),
* the older `SimulationComponent` in `src/app/simulation/simulation.component.ts`
  (the reaction orchestrator guarded by the `reactionInProgress` flag).

Modelling conventions:
* JavaScript numbers are modelled as exact rationals (`ℚ`); the numeric claims
  under scrutiny are about the arithmetic structure of formulas and threshold
  comparisons, not binary-float rounding.
* Positions/velocities live on externally-owned physics bodies (the spec's
  physics collaborator).  Where the core reads them we pass the readings in as
  an environment (`distances`, kinetic-energy contribution); where the core
  writes them (forces, repositioning) the write is an external side effect and
  does not change the core state.
* `setTimeout` continuations are recorded as explicit pending actions.
* `Date.now()` readings are inputs (`now`).
-/

/-- Element record, from `ChemicalElement` in `autonomous-chemistry.engine.ts`. -/
structure ChemicalElement where
  atomicNumber : ℕ
  symbol : String
  name : String
  valenceElectrons : ℕ
  maxBonds : ℕ
  electronegativity : ℚ
  atomicRadius : ℚ
  ionizationEnergy : ℚ
  electronAffinity : ℚ
  preferredOxidationStates : List ℤ
deriving Repr, DecidableEq

/-- The static element catalog, `AutonomousChemistryEngine.CHEMICAL_ELEMENTS`
(first 18 elements; lookup of any other atomic number fails). -/
def CHEMICAL_ELEMENTS : ℕ → Option ChemicalElement
  | 1 => some ⟨1, "H", "Hydrogen", 1, 1, 2.20, 0.37, 13.6, 0.75, [-1, 1]⟩
  | 2 => some ⟨2, "He", "Helium", 2, 0, 0.0, 0.32, 24.6, 0.0, [0]⟩
  | 3 => some ⟨3, "Li", "Lithium", 1, 1, 0.98, 1.52, 5.4, 0.62, [1]⟩
  | 4 => some ⟨4, "Be", "Beryllium", 2, 2, 1.57, 1.12, 9.3, 0.0, [2]⟩
  | 5 => some ⟨5, "B", "Boron", 3, 3, 2.04, 0.88, 8.3, 0.28, [3]⟩
  | 6 => some ⟨6, "C", "Carbon", 4, 4, 2.55, 0.77, 11.3, 1.26, [-4, -3, -2, -1, 0, 1, 2, 3, 4]⟩
  | 7 => some ⟨7, "N", "Nitrogen", 5, 3, 3.04, 0.75, 14.5, 0.07, [-3, -2, -1, 0, 1, 2, 3, 4, 5]⟩
  | 8 => some ⟨8, "O", "Oxygen", 6, 2, 3.44, 0.73, 13.6, 1.46, [-2, -1, 0, 1, 2]⟩
  | 9 => some ⟨9, "F", "Fluorine", 7, 1, 3.98, 0.71, 17.4, 3.40, [-1]⟩
  | 10 => some ⟨10, "Ne", "Neon", 8, 0, 0.0, 0.69, 21.6, 0.0, [0]⟩
  | 11 => some ⟨11, "Na", "Sodium", 1, 1, 0.93, 1.86, 5.1, 0.55, [1]⟩
  | 12 => some ⟨12, "Mg", "Magnesium", 2, 2, 1.31, 1.60, 7.6, 0.0, [2]⟩
  | 13 => some ⟨13, "Al", "Aluminum", 3, 3, 1.61, 1.43, 6.0, 0.43, [3]⟩
  | 14 => some ⟨14, "Si", "Silicon", 4, 4, 1.90, 1.18, 8.2, 1.39, [-4, 2, 4]⟩
  | 15 => some ⟨15, "P", "Phosphorus", 5, 5, 2.19, 1.10, 10.5, 0.75, [-3, 3, 5]⟩
  | 16 => some ⟨16, "S", "Sulfur", 6, 6, 2.58, 1.04, 10.4, 2.08, [-2, 2, 4, 6]⟩
  | 17 => some ⟨17, "Cl", "Chlorine", 7, 7, 3.16, 0.99, 13.0, 3.61, [-1, 1, 3, 5, 7]⟩
  | 18 => some ⟨18, "Ar", "Argon", 8, 0, 0.0, 0.97, 15.8, 0.0, [0]⟩
  | _ => none

/-- Simulated atom as the core reads it: unique id, proton count (= element),
display name, molecule-membership flag.  Neutron/electron counts and the
physics body are irrelevant to the properties below. -/
structure Atom where
  id : ℕ
  protons : ℕ
  elementName : String := ""
  isMoleculeMember : Bool := false
deriving Repr, DecidableEq

namespace Engine

/-- `AutonomousChemistryEngine.getCurrentBondCount`.  The source reads:
`// This would be implemented to count existing bonds for the atom`
`return 0; // Placeholder` — it always returns 0. -/
def getCurrentBondCount (_atom : Atom) : ℕ := 0

/-- `AutonomousChemistryEngine.calculateActivationEnergy`.  `none` models the
`Infinity` returned for unknown elements. -/
def calculateActivationEnergy (atomA atomB : Atom) : Option ℚ :=
  match CHEMICAL_ELEMENTS atomA.protons, CHEMICAL_ELEMENTS atomB.protons with
  | some elementA, some elementB =>
      let electronegativityDiff := |elementA.electronegativity - elementB.electronegativity|
      let avgIonizationEnergy := (elementA.ionizationEnergy + elementB.ionizationEnergy) / 2
      let activationEnergy := avgIonizationEnergy * (1 - electronegativityDiff / 4) * 0.1
      some (max activationEnergy 1)
  | _, _ => none

/-- `AutonomousChemistryEngine.canFormBond`.  A comparison against the
`Infinity` activation energy of an unknown pair is always false, but that
branch is unreachable because unknown elements fail the first check. -/
def canFormBond (atomA atomB : Atom) (systemEnergy : ℚ) : Bool :=
  match CHEMICAL_ELEMENTS atomA.protons, CHEMICAL_ELEMENTS atomB.protons with
  | some elementA, some elementB =>
      if elementA.maxBonds = 0 ∨ elementB.maxBonds = 0 then false
      else
        let bondsA := getCurrentBondCount atomA
        let bondsB := getCurrentBondCount atomB
        if bondsA ≥ elementA.maxBonds ∨ bondsB ≥ elementB.maxBonds then false
        else
          match calculateActivationEnergy atomA atomB with
          | some activationEnergy => decide (systemEnergy ≥ activationEnergy)
          | none => false
  | _, _ => false

/-- `AutonomousChemistryEngine.findOptimalCentralAtom` (an `Array.reduce`;
`none` on the empty list, where the source call would throw). -/
def findOptimalCentralAtom : List Atom → Option Atom
  | [] => none
  | a :: rest =>
      some (rest.foldl
        (fun best current =>
          match CHEMICAL_ELEMENTS current.protons, CHEMICAL_ELEMENTS best.protons with
          | some currentElement, some bestElement =>
              let currentScore := (currentElement.maxBonds : ℚ) - currentElement.electronegativity
              let bestScore := (bestElement.maxBonds : ℚ) - bestElement.electronegativity
              if currentScore > bestScore then current else best
          | _, _ => best)
        a)

/-- `AutonomousChemistryEngine.determineGeometry`.  Bonds are given as pairs of
endpoint atom ids (the source stores atom references in `BondingPair`).  The
`lonePairs` computation is JavaScript number arithmetic, so it can produce
half-integers; a half-integer total matches no `switch` case and falls through
to `'complex'`. -/
def determineGeometry (atoms : List Atom) (bonds : List (ℕ × ℕ))
    (centralAtomArg : Option Atom) : String :=
  if atoms.length = 1 then "atomic"
  else if atoms.length = 2 then "linear"
  else
    let centralAtom :=
      match centralAtomArg with
      | some c => c
      | none => (findOptimalCentralAtom atoms).getD ⟨0, 0, "", false⟩
    let centralBonds := bonds.filter (fun b => b.1 = centralAtom.id ∨ b.2 = centralAtom.id)
    let bondCount := centralBonds.length
    match CHEMICAL_ELEMENTS centralAtom.protons with
    | none => "unknown"
    | some element =>
        let lonePairs : ℚ := max 0 (((element.valenceElectrons : ℚ) - bondCount * 2) / 2)
        let totalElectronPairs : ℚ := bondCount + lonePairs
        if totalElectronPairs = 2 then "linear"
        else if totalElectronPairs = 3 then
          if lonePairs = 0 then "trigonal_planar" else "bent"
        else if totalElectronPairs = 4 then
          if lonePairs = 0 then "tetrahedral"
          else if lonePairs = 1 then "trigonal_pyramidal"
          else if lonePairs = 2 then "bent"
          else "complex"
        else if totalElectronPairs = 5 then
          if lonePairs = 0 then "trigonal_bipyramidal"
          else if lonePairs = 1 then "seesaw"
          else if lonePairs = 2 then "T_shaped"
          else if lonePairs = 3 then "linear"
          else "complex"
        else if totalElectronPairs = 6 then
          if lonePairs = 0 then "octahedral"
          else if lonePairs = 1 then "square_pyramidal"
          else if lonePairs = 2 then "square_planar"
          else "complex"
        else "complex"

end Engine

/-- JavaScript `v || d` on an optional number (`undefined` and `0` are falsy). -/
def jsOrNat (v : Option ℕ) (d : ℕ) : ℕ :=
  match v with
  | some x => if x = 0 then d else x
  | none => d

/-- JavaScript `v || d` on an optional string (`undefined` and `""` are falsy). -/
def jsOrStr (v : Option String) (d : String) : String :=
  match v with
  | some x => if x = "" then d else x
  | none => d

/-- Deduplication keeping the first occurrence, as JavaScript `Map` insertion
order does when building per-element compositions. -/
def firstDedup : List ℕ → List ℕ
  | [] => []
  | a :: rest => a :: (firstDedup rest).filter (fun x => x ≠ a)

/-- `'₀₁₂₃₄₅₆₇₈₉'[digit]` from the formula generators. -/
def subscriptDigit (d : Char) : Char :=
  match d with
  | '0' => '₀' | '1' => '₁' | '2' => '₂' | '3' => '₃' | '4' => '₄'
  | '5' => '₅' | '6' => '₆' | '7' => '₇' | '8' => '₈' | '9' => '₉'
  | _ => '₀'

/-- `count.toString().split('').map(d => '₀₁₂₃₄₅₆₇₈₉'[parseInt(d)]).join('')`. -/
def subscriptOf (count : ℕ) : String :=
  String.mk ((Nat.toDigits 10 count).map subscriptDigit)

/-! ## The current `SimulationComponent`
(the class wired to `simulation-config.ts` and `control-panel.component.ts`,
found in `molecular-recipes.interface.ts`). -/

namespace Sim

/-- Bond record: canonical id string plus the two endpoint atom ids (the source
additionally stores the physics constraint and the visual, both external). -/
structure Bond where
  id : String
  atomA : ℕ
  atomB : ℕ
deriving Repr, DecidableEq

/-- Molecule record: canonical id, display name, member atom ids (aggregate
body and visuals are external). -/
structure Molecule where
  id : String
  name : String
  atomIds : List ℕ
deriving Repr, DecidableEq

/-- Core mutable component state touched by the embedded operations. -/
structure SimState where
  atoms : List Atom
  bonds : List Bond
  molecules : List Molecule
  discoveredMolecules : List String
  moleculeNames : List String
  transientHeatEnergy : ℚ
  notifications : List String
  selectedAtomsForBonding : List ℕ
deriving Repr, DecidableEq

/-- `private valenceElectrons = {1: 1, 6: 4, 7: 5, 8: 6, 9: 7}`. -/
def valenceElectrons : ℕ → Option ℕ
  | 1 => some 1 | 6 => some 4 | 7 => some 5 | 8 => some 6 | 9 => some 7
  | _ => none

/-- `private maxBonds = {1: 1, 6: 4, 7: 3, 8: 2, 9: 1}`. -/
def maxBonds : ℕ → Option ℕ
  | 1 => some 1 | 6 => some 4 | 7 => some 3 | 8 => some 2 | 9 => some 1
  | _ => none

/-- `private electronegativity = {1: 2.20, 6: 2.55, 7: 3.04, 8: 3.44, 9: 3.98}`. -/
def electronegativity : ℕ → Option ℚ
  | 1 => some 2.20 | 6 => some 2.55 | 7 => some 3.04 | 8 => some 3.44 | 9 => some 3.98
  | _ => none

/-- `private elementSymbols = {1: 'H', ..., 18: 'Ar'}`. -/
def elementSymbols : ℕ → Option String
  | 1 => some "H" | 2 => some "He" | 3 => some "Li" | 4 => some "Be" | 5 => some "B"
  | 6 => some "C" | 7 => some "N" | 8 => some "O" | 9 => some "F" | 10 => some "Ne"
  | 11 => some "Na" | 12 => some "Mg" | 13 => some "Al" | 14 => some "Si" | 15 => some "P"
  | 16 => some "S" | 17 => some "Cl" | 18 => some "Ar"
  | _ => none

/-- Number of occurrences of element `p` in a component (the source builds a
`Map<number, number>` of counts with `forEach`). -/
def countsOf (atoms : List Atom) (p : ℕ) : ℕ :=
  (atoms.filter (fun a => a.protons = p)).length

/-- `generateMolecularFormula`: distinct elements sorted by ascending atomic
number, symbol (or `E<p>`) with Unicode-subscript count when above 1. -/
def generateMolecularFormula (atoms : List Atom) : String :=
  let keys := List.insertionSort (fun a b => a ≤ b) (firstDedup (atoms.map (·.protons)))
  String.join (keys.map (fun protons =>
    let symbol := jsOrStr (elementSymbols protons) ("E" ++ toString protons)
    let count := countsOf atoms protons
    if count = 1 then symbol else symbol ++ subscriptOf count))

/-- Result record of `identifyMoleculeType` (never `null` in the source: every
branch returns an object). -/
structure MoleculeInfo where
  name : String
  geometry : String
  bondLength : ℚ
deriving Repr, DecidableEq

/-- `identifyMoleculeType`: first match against the fixed table of known
compositions, otherwise the generated `Compound (<formula>)` fallback. -/
def identifyMoleculeType (atoms : List Atom) : MoleculeInfo :=
  let hCount := countsOf atoms 1
  let cCount := countsOf atoms 6
  let nCount := countsOf atoms 7
  let oCount := countsOf atoms 8
  if oCount = 1 ∧ hCount = 2 ∧ atoms.length = 3 then ⟨"Water (H₂O)", "bent", 2.0⟩
  else if cCount = 1 ∧ oCount = 2 ∧ atoms.length = 3 then ⟨"Carbon Dioxide (CO₂)", "linear", 2.2⟩
  else if cCount = 1 ∧ hCount = 4 ∧ atoms.length = 5 then ⟨"Methane (CH₄)", "tetrahedral", 1.8⟩
  else if nCount = 1 ∧ hCount = 3 ∧ atoms.length = 4 then ⟨"Ammonia (NH₃)", "trigonal_pyramidal", 1.6⟩
  else if hCount = 2 ∧ atoms.length = 2 then ⟨"Hydrogen Gas (H₂)", "linear", 1.2⟩
  else if oCount = 2 ∧ atoms.length = 2 then ⟨"Oxygen Gas (O₂)", "linear", 1.5⟩
  else if nCount = 2 ∧ atoms.length = 2 then ⟨"Nitrogen Gas (N₂)", "linear", 1.6⟩
  else ⟨"Compound (" ++ generateMolecularFormula atoms ++ ")", "complex", 2.0⟩

/-- Lexicographic code-unit comparison of character lists, the comparison that
JavaScript's default `Array.prototype.sort` applies to the string forms of the
elements (our strings are decimal digits, all in the basic plane, so one
character is one UTF-16 code unit). -/
def charListLe : List Char → List Char → Bool
  | [], _ => true
  | _ :: _, [] => false
  | a :: as, b :: bs =>
      if a.toNat < b.toNat then true
      else if b.toNat < a.toNat then false
      else charListLe as bs

/-- The string ordering used by the comparator-less JavaScript sort. -/
def jsStrLe (s t : String) : Prop := charListLe s.data t.data = true

instance : DecidableRel jsStrLe :=
  fun s t => inferInstanceAs (Decidable (charListLe s.data t.data = true))

/-- `connectedComponent.map(a => a.id).sort().join('-')`.  JavaScript's
comparator-less `Array.prototype.sort` compares the elements' string forms by
UTF-16 code units, so the numeric ids are ordered lexicographically as decimal
strings. -/
def moleculeIdOf (ids : List ℕ) : String :=
  String.intercalate ("-") (List.insertionSort jsStrLe (ids.map (fun i => toString i)))

/-- Resolve an atom id to its current record (bonds hold references to the
live atom objects; we model references by id-lookup in the current state). -/
def lookupAtom (atoms : List Atom) (i : ℕ) : Option Atom :=
  atoms.find? (fun a => a.id = i)

/-- Inner loop of the component traversal: push the unvisited, non-member
neighbors of `current` (in bond-list order) onto the stack.  The stack is kept
head-first, so `pop` of the JavaScript array is our head. -/
def pushNeighbors (atoms : List Atom) (bonds : List Bond) (current : ℕ)
    (checked : List ℕ) (toVisit : List ℕ) : List ℕ × List ℕ :=
  (bonds.filter (fun b => b.atomA = current ∨ b.atomB = current)).foldl
    (fun (st : List ℕ × List ℕ) b =>
      let neighborId := if b.atomA = current then b.atomB else b.atomA
      match lookupAtom atoms neighborId with
      | some neighbor =>
          if ¬ neighbor.isMoleculeMember ∧ ¬ st.1.contains neighborId then
            (neighborId :: st.1, neighborId :: st.2)
          else st
      | none => st)
    (checked, toVisit)

/-- The `while (toVisit.length > 0)` stack traversal, with explicit fuel (each
atom id enters the stack at most once, so `atoms.length + 1` fuel suffices).
Returns the connected component in visit order plus the updated checked set. -/
def dfsGo (atoms : List Atom) (bonds : List Bond) :
    ℕ → List ℕ → List ℕ → List Atom → List Atom × List ℕ
  | 0, _, checked, comp => (comp.reverse, checked)
  | _ + 1, [], checked, comp => (comp.reverse, checked)
  | fuel + 1, current :: toVisit, checked, comp =>
      let compNew :=
        match lookupAtom atoms current with
        | some a => a :: comp
        | none => comp
      let st := pushNeighbors atoms bonds current checked toVisit
      dfsGo atoms bonds fuel st.2 st.1 compNew

/-- Core-state effect of `createMolecule` plus the caller's push: flip the
members' `isMoleculeMember`, delete the now-internal bond records, append the
molecule record.  Geometry/positions/aggregate body are external-body work. -/
def createMolecule (s : SimState) (moleculeId : String) (info : MoleculeInfo)
    (comp : List Atom) : SimState :=
  let compIds := comp.map (·.id)
  { s with
      atoms := s.atoms.map (fun a =>
        if compIds.contains a.id then { a with isMoleculeMember := true } else a),
      bonds := s.bonds.filter (fun b =>
        ¬ (compIds.contains b.atomA ∧ compIds.contains b.atomB)),
      molecules := s.molecules ++ [⟨moleculeId, info.name, compIds⟩] }

/-- Body of the `for (const atom of this.atoms)` loop of `identifyMolecules`. -/
def processAtom (s : SimState) (checked : List ℕ) (aid : ℕ) : SimState × List ℕ :=
  match lookupAtom s.atoms aid with
  | none => (s, checked)
  | some atom =>
      if checked.contains atom.id ∨ atom.isMoleculeMember then (s, checked)
      else
        let st := dfsGo s.atoms s.bonds (s.atoms.length + 1) [atom.id] (atom.id :: checked) []
        let comp := st.1
        let checkedNew := st.2
        if comp.length ≥ 2 then
          let moleculeId := moleculeIdOf (comp.map (·.id))
          match s.molecules.find? (fun m => m.id = moleculeId) with
          | some _ => (s, checkedNew)
          | none =>
              let moleculeInfo := identifyMoleculeType comp
              let sNew := createMolecule s moleculeId moleculeInfo comp
              let sFin :=
                if sNew.discoveredMolecules.contains moleculeInfo.name then sNew
                else { sNew with
                         discoveredMolecules := sNew.discoveredMolecules ++ [moleculeInfo.name],
                         notifications := sNew.notifications ++
                           ["¡Nueva molécula descubierta: " ++ moleculeInfo.name ++ "!"] }
              (sFin, checkedNew)
        else (s, checkedNew)

/-- `identifyMolecules`: connected components of the bond graph over the
non-member atoms; components of size ≥ 2 are materialized unless a molecule
with the same canonical id already exists. -/
def identifyMolecules (s : SimState) : SimState :=
  let final := (s.atoms.map (·.id)).foldl
    (fun (st : SimState × List ℕ) aid => processAtom st.1 st.2 aid)
    (s, ([] : List ℕ))
  { final.1 with moleculeNames := final.1.molecules.map (·.name) }

/-- `createBond`: duplicate-pair check in both id orientations, then append the
bond record (constraint and cylinder visual are external), then identify
molecules unless suppressed. -/
def createBond (s : SimState) (atomA atomB : Atom) (suppressIdentify : Bool) : SimState :=
  let bondId1 := toString atomA.id ++ "-" ++ toString atomB.id
  let bondId2 := toString atomB.id ++ "-" ++ toString atomA.id
  let bondExists := s.bonds.any (fun bond => bond.id = bondId1 ∨ bond.id = bondId2)
  if bondExists then s
  else
    let sNew := { s with bonds := s.bonds ++ [⟨bondId1, atomA.id, atomB.id⟩] }
    if suppressIdentify then sNew else identifyMolecules sNew

/-- `countAtomBonds`: number of bond records touching the atom. -/
def countAtomBonds (s : SimState) (atom : Atom) : ℕ :=
  (s.bonds.filter (fun b => b.atomA = atom.id ∨ b.atomB = atom.id)).length

/-- `shouldFormBond`: engine eligibility, then the component-level valence
guard `bondsA < maxA && bondsB < maxB` based on actual bond records. -/
def shouldFormBond (s : SimState) (atomA atomB : Atom) (systemEnergy : ℚ) : Bool :=
  if ¬ Engine.canFormBond atomA atomB systemEnergy then false
  else
    let bondsA := countAtomBonds s atomA
    let bondsB := countAtomBonds s atomB
    let maxA := jsOrNat (maxBonds atomA.protons) 4
    let maxB := jsOrNat (maxBonds atomB.protons) 4
    decide (bondsA < maxA) && decide (bondsB < maxB)

/-- `createManualBond` applied to the two selected atoms: duplicate check,
valence check with user-visible warnings, otherwise bond creation (a deferred
`identifyMolecules` also runs 100ms later; `createBond` with
`suppressIdentify = false` already identifies synchronously). -/
def createManualBond (s : SimState) (atomA atomB : Atom) : SimState :=
  let bondExists := s.bonds.any (fun b =>
    (b.atomA = atomA.id ∧ b.atomB = atomB.id) ∨ (b.atomA = atomB.id ∧ b.atomB = atomA.id))
  if bondExists then
    { s with notifications := s.notifications ++ ["Estos átomos ya están enlazados"],
             selectedAtomsForBonding := [] }
  else
    let bondsA := countAtomBonds s atomA
    let bondsB := countAtomBonds s atomB
    let maxA := jsOrNat (maxBonds atomA.protons) 4
    let maxB := jsOrNat (maxBonds atomB.protons) 4
    if bondsA ≥ maxA ∨ bondsB ≥ maxB then
      { s with notifications := s.notifications ++
                 ["Uno de los átomos ya tiene el máximo de enlaces"],
               selectedAtomsForBonding := [] }
    else
      let sNew := createBond s atomA atomB false
      { sNew with
          selectedAtomsForBonding := [],
          notifications := sNew.notifications ++
            ["Enlace creado: " ++ atomA.elementName ++ " - " ++ atomB.elementName] }

/-- `addSystemEnergy` (the spec's `addEnergy`): additive, capped at the
configured maximum 100; the proportional velocity nudges are external-body side
effects on the free atoms. -/
def addSystemEnergy (s : SimState) (amount : ℚ) : SimState :=
  { s with
      transientHeatEnergy := min 100 (s.transientHeatEnergy + amount),
      notifications := s.notifications ++ ["+" ++ toString amount ++ " energía añadida"] }

end Sim

/-- JavaScript `v || d` on an optional rational (`undefined` and `0` are falsy). -/
def jsOrQ (v : Option ℚ) (d : ℚ) : ℚ :=
  match v with
  | some x => if x = 0 then d else x
  | none => d

/-- Does `needle` occur as a contiguous subsequence of `hay`? -/
def containsSeq : List Char → List Char → Bool
  | needle, [] => needle.isEmpty
  | needle, c :: t => needle.isPrefixOf (c :: t) || containsSeq needle t

/-- JavaScript `name.includes(sub)`: substring containment. -/
def nameIncludes (name sub : String) : Bool :=
  containsSeq sub.toList name.toList

/-- Ordered pairs `(i, j)` with `i < j`, the iteration order of the nested
`for` loops over an array. -/
def orderedPairs {α : Type} : List α → List (α × α)
  | [] => []
  | a :: rest => rest.map (fun b => (a, b)) ++ orderedPairs rest

/-- `a :: b :: rest` pairing: the `while (atomsOfType.length >= 2)` shift-shift
loop of `formDiatomicMolecules`. -/
def pairOff : List ℕ → List (ℕ × ℕ)
  | a :: b :: rest => (a, b) :: pairOff rest
  | _ => []

namespace Engine

/-- `['', 'mono', 'di', 'tri', 'tetra', 'penta', 'hexa', 'hepta', 'octa', 'nona', 'deca']`. -/
def multiplicativePrefixes : List String :=
  ["", "mono", "di", "tri", "tetra", "penta", "hexa", "hepta", "octa", "nona", "deca"]

instance decElectronegPairRel :
    DecidableRel (fun (x y : ChemicalElement × ℕ) =>
      x.1.electronegativity ≤ y.1.electronegativity) :=
  fun x y => inferInstanceAs (Decidable (x.1.electronegativity ≤ y.1.electronegativity))

/-- `AutonomousChemistryEngine.generateSystematicName`: per-element composition
(first-occurrence key order), unknown elements dropped, sorted by ascending
electronegativity, multiplicative prefixes and a subscripted formula. -/
def generateSystematicName (atoms : List Atom) : String :=
  let keys := firstDedup (atoms.map (·.protons))
  let entries := keys.filterMap (fun protons =>
    (CHEMICAL_ELEMENTS protons).map (fun element => (element, Sim.countsOf atoms protons)))
  let sortedElements := List.insertionSort
    (fun x y => x.1.electronegativity ≤ y.1.electronegativity) entries
  let parts := sortedElements.map (fun ec =>
    let pfx :=
      if ec.2 > 1 then jsOrStr (multiplicativePrefixes.get? ec.2) (toString ec.2 ++ "-")
      else ""
    pfx ++ ec.1.name.toLower)
  let formulaParts := sortedElements.map (fun ec =>
    ec.1.symbol ++ (if ec.2 > 1 then subscriptOf ec.2 else ""))
  String.intercalate (" ") parts ++ " (" ++ String.join formulaParts ++ ")"

end Engine

/-! ## The older `SimulationComponent` (`simulation.component.ts`)
It hosts the reaction orchestrator and the `reactionInProgress` cooperative
lock.  External-body readings (distances, kinetic energy, wall clock) enter
through an environment record; `setTimeout` continuations are recorded as
pending actions. -/

namespace OldSim

/-- Readings the component takes from the physics collaborator and the clock. -/
structure Env where
  now : ℤ
  kineticContribution : ℚ
  adist : ℕ → ℕ → ℚ
  amdist : ℕ → String → ℚ
  mdist : String → String → ℚ

/-- Deferred `setTimeout` continuations, recorded rather than executed. -/
inductive PendingAction where
  | gradualBond (atomA atomB : ℕ)
  | finishMolecule (ids : List ℕ)
  | identifyAndUnlock
  | identifyLater
  | optimalBondsAndIdentify (ids : List ℕ)
  | deferredOptimal (ids : List ℕ)
deriving Repr, DecidableEq

/-- Core mutable state of the older component. -/
structure OState where
  atoms : List Atom
  bonds : List Sim.Bond
  molecules : List Sim.Molecule
  discoveredMolecules : List String
  moleculeNames : List String
  transientHeatEnergy : ℚ
  reactionInProgress : Bool
  lastBondCheck : ℤ
  bondingCooldowns : List (String × ℤ)
  bondingTransitions : List String
  pending : List PendingAction
deriving Repr, DecidableEq

/-- `private valenceElectrons = {1: 1, 6: 4, 7: 5, 8: 6, 9: 7}` (older file). -/
def valenceElectrons : ℕ → Option ℕ
  | 1 => some 1 | 6 => some 4 | 7 => some 5 | 8 => some 6 | 9 => some 7
  | _ => none

/-- `private electronegativity = {1: 2.20, 6: 2.55, 7: 3.04, 8: 3.44, 9: 3.98}`. -/
def electronegativity : ℕ → Option ℚ
  | 1 => some 2.20 | 6 => some 2.55 | 7 => some 3.04 | 8 => some 3.44 | 9 => some 3.98
  | _ => none

/-- Flip the membership flag of the listed atoms. -/
def setMembers (s : OState) (ids : List ℕ) (v : Bool) : OState :=
  { s with atoms := s.atoms.map (fun a =>
      if ids.contains a.id then { a with isMoleculeMember := v } else a) }

/-- Record a deferred continuation. -/
def addPending (s : OState) (p : PendingAction) : OState :=
  { s with pending := s.pending ++ [p] }

/-- Proton count of the atom with the given id (0 if absent). -/
def protonsOf (s : OState) (aid : ℕ) : ℕ :=
  ((Sim.lookupAtom s.atoms aid).map (·.protons)).getD 0

/-- Resolve a list of atom ids to their live records. -/
def atomsOfIds (s : OState) (ids : List ℕ) : List Atom :=
  ids.filterMap (Sim.lookupAtom s.atoms)

/-- `bondingCooldowns.get(key) || 0`. -/
def cooldownGet (m : List (String × ℤ)) (k : String) : ℤ :=
  (((m.find? (fun e => e.1 = k))).map (·.2)).getD 0

/-- `bondingCooldowns.set(key, v)`. -/
def cooldownSet (m : List (String × ℤ)) (k : String) (v : ℤ) : List (String × ℤ) :=
  if m.any (fun e => e.1 = k) then m.map (fun e => if e.1 = k then (k, v) else e)
  else m ++ [(k, v)]

/-- `getMinimumActivationEnergy` (older component): electronegativity-difference
base with a valence bonus, floored at 1. -/
def getMinimumActivationEnergy (atomA atomB : Atom) : ℚ :=
  let electronegativityA := jsOrQ (electronegativity atomA.protons) 2.0
  let electronegativityB := jsOrQ (electronegativity atomB.protons) 2.0
  let electronegativityDiff := |electronegativityA - electronegativityB|
  let baseEnergy := max 2 (10 - electronegativityDiff * 2)
  let valenceA := (jsOrNat (valenceElectrons atomA.protons) 4 : ℚ)
  let valenceB := (jsOrNat (valenceElectrons atomB.protons) 4 : ℚ)
  let valenceBonus := (8 - valenceA) + (8 - valenceB)
  max 1 (baseEnergy - valenceBonus * 0.5)

/-- `canFormBondWithEnergy`. -/
def canFormBondWithEnergy (atomA atomB : Atom) (systemEnergy : ℚ) : Bool :=
  decide (systemEnergy ≥ getMinimumActivationEnergy atomA atomB)

/-- `consumeActivationEnergy`: deduct the pair's activation energy, floored at 0. -/
def consumeActivationEnergy (s : OState) (atomA atomB : Atom) : OState :=
  { s with
      transientHeatEnergy := max 0
        (s.transientHeatEnergy - getMinimumActivationEnergy atomA atomB) }

/-- `calculateSystemEnergy` (older component): transient heat plus the scaled
kinetic energy of the externally-owned bodies, supplied by the environment. -/
def calculateSystemEnergy (s : OState) (env : Env) : ℚ :=
  s.transientHeatEnergy + env.kineticContribution

/-- Core effect of `createAdvancedMolecule` plus the caller's push: membership
flags, internal-bond deletion, molecule record.  The aggregate body, per-atom
relative positions and bond visuals are external-body/scene work. -/
def createAdvancedMolecule (s : OState) (moleculeId : String) (name : String)
    (comp : List Atom) : OState :=
  let compIds := comp.map (·.id)
  { s with
      atoms := s.atoms.map (fun a =>
        if compIds.contains a.id then { a with isMoleculeMember := true } else a),
      bonds := s.bonds.filter (fun b =>
        ¬ (compIds.contains b.atomA ∧ compIds.contains b.atomB)),
      molecules := s.molecules ++ [⟨moleculeId, name, compIds⟩] }

/-- Loop body of the older `identifyMolecules`: the discovered-registry append
uses the systematic name and precedes the duplicate-id check; components of
size 1 have their membership flag reset. -/
def processAtomOld (s : OState) (checked : List ℕ) (aid : ℕ) : OState × List ℕ :=
  match Sim.lookupAtom s.atoms aid with
  | none => (s, checked)
  | some atom =>
      if checked.contains atom.id ∨ atom.isMoleculeMember then (s, checked)
      else
        let st := Sim.dfsGo s.atoms s.bonds (s.atoms.length + 1) [atom.id] (atom.id :: checked) []
        let comp := st.1
        let checkedNew := st.2
        if comp.length ≥ 2 then
          let systematicName := Engine.generateSystematicName comp
          let s1 :=
            if s.discoveredMolecules.contains systematicName then s
            else { s with discoveredMolecules := s.discoveredMolecules ++ [systematicName] }
          let moleculeId := Sim.moleculeIdOf (comp.map (·.id))
          match s1.molecules.find? (fun m => m.id = moleculeId) with
          | some _ => (s1, checkedNew)
          | none => (createAdvancedMolecule s1 moleculeId systematicName comp, checkedNew)
        else
          let compIds := comp.map (·.id)
          ({ s with atoms := s.atoms.map (fun a =>
               if compIds.contains a.id then { a with isMoleculeMember := false } else a) },
           checkedNew)

/-- Older `identifyMolecules`. -/
def identifyMolecules (s : OState) : OState :=
  let final := (s.atoms.map (·.id)).foldl
    (fun (st : OState × List ℕ) aid => processAtomOld st.1 st.2 aid)
    (s, ([] : List ℕ))
  { final.1 with moleculeNames := final.1.molecules.map (·.name) }

/-- Older `createBond`: duplicate check, energy gate (skipped when
`suppressIdentify`), bond push, then identification unless suppressed. -/
def createBond (s : OState) (env : Env) (atomA atomB : Atom)
    (suppressIdentify : Bool) : OState :=
  let bondId1 := toString atomA.id ++ "-" ++ toString atomB.id
  let bondId2 := toString atomB.id ++ "-" ++ toString atomA.id
  if s.bonds.any (fun bond => bond.id = bondId1 ∨ bond.id = bondId2) then s
  else if ¬ suppressIdentify ∧
      ¬ canFormBondWithEnergy atomA atomB (calculateSystemEnergy s env) then s
  else
    let sNew := { s with bonds := s.bonds ++ [⟨bondId1, atomA.id, atomB.id⟩] }
    if suppressIdentify then sNew else identifyMolecules sNew

/-- Older `shouldFormBond`: engine eligibility plus the hand-tuned preference
filters (suppress H–H when oxygen is within radius 5, suppress O–O when another
element is within radius 5). -/
def shouldFormBond (s : OState) (env : Env) (atomA atomB : Atom)
    (systemEnergy : ℚ) : Bool :=
  if ¬ Engine.canFormBond atomA atomB systemEnergy then false
  else if atomA.protons = 1 ∧ atomB.protons = 1 then
    !(s.atoms.any (fun c =>
        c.protons == 8 && !c.isMoleculeMember &&
        (decide (env.adist c.id atomA.id < 5) || decide (env.adist c.id atomB.id < 5))))
  else if atomA.protons = 8 ∧ atomB.protons = 8 then
    !(s.atoms.any (fun c =>
        c.protons != 8 && !c.isMoleculeMember &&
        (decide (env.adist c.id atomA.id < 5) || decide (env.adist c.id atomB.id < 5))))
  else true

/-- `initiateGradualBonding`: register the transition (once per pair id) and a
deferred bond-creation continuation driven by the engine's 2-second animation. -/
def initiateGradualBonding (s : OState) (atomA atomB : Atom) : OState :=
  let bondId := toString atomA.id ++ "-" ++ toString atomB.id
  if s.bondingTransitions.contains bondId then s
  else
    { s with bondingTransitions := s.bondingTransitions ++ [bondId],
             pending := s.pending ++ [.gradualBond atomA.id atomB.id] }

/-- Pair body of the older `checkAndCreateBonds` loop.  The attraction branch
only applies forces to the external bodies, which leaves the core state
unchanged. -/
def checkPair (s : OState) (env : Env) (systemEnergy : ℚ) (atomA atomB : Atom) : OState :=
  if atomA.isMoleculeMember || atomB.isMoleculeMember then s
  else
    let bondId1 := toString atomA.id ++ "-" ++ toString atomB.id
    let bondId2 := toString atomB.id ++ "-" ++ toString atomA.id
    if s.bonds.any (fun bond => bond.id = bondId1 ∨ bond.id = bondId2) then s
    else
      let cooldownKey := toString (min atomA.id atomB.id) ++ "-" ++ toString (max atomA.id atomB.id)
      if env.now - cooldownGet s.bondingCooldowns cooldownKey < 1000 then s
      else
        let distance := env.adist atomA.id atomB.id
        if distance < 3.5 then
          if shouldFormBond s env atomA atomB systemEnergy then
            initiateGradualBonding
              { s with bondingCooldowns := cooldownSet s.bondingCooldowns cooldownKey env.now }
              atomA atomB
          else s
        else if distance < 10.0 then s
        else s

/-- Older `checkAndCreateBonds` (claim C9's lines 380–437): reaction-lock
guard, bond-check throttle, then the pair scan. -/
def checkAndCreateBonds (s : OState) (env : Env) : OState :=
  if s.reactionInProgress then s
  else if env.now - s.lastBondCheck < 100 then s
  else
    let s1 := { s with lastBondCheck := env.now }
    let systemEnergy := calculateSystemEnergy s1 env
    (orderedPairs s1.atoms).foldl
      (fun acc pair => checkPair acc env systemEnergy pair.1 pair.2) s1

/-- `followsValenceRules`: total valence electrons over 2 (floored) must not
exceed the maximum pair count among at most 6 atoms. -/
def followsValenceRules (atoms : List Atom) : Bool :=
  let totalValenceElectrons := (atoms.map (fun a => jsOrNat (valenceElectrons a.protons) 4)).sum
  let expectedBonds := totalValenceElectrons / 2
  let maxPossibleBonds := atoms.length * (atoms.length - 1) / 2
  decide (expectedBonds ≤ maxPossibleBonds) && decide (atoms.length ≤ 6)

/-- `isChemicallyStable`: table of known stable compositions, then the generic
valence-balance heuristic for 2–6 atoms. -/
def isChemicallyStable (atoms : List Atom) : Bool :=
  let h := Sim.countsOf atoms 1
  let c := Sim.countsOf atoms 6
  let n := Sim.countsOf atoms 7
  let o := Sim.countsOf atoms 8
  let f := Sim.countsOf atoms 9
  if c = 1 ∧ o = 2 ∧ atoms.length = 3 then true
  else if c = 1 ∧ h = 4 ∧ atoms.length = 5 then true
  else if o = 1 ∧ h = 2 ∧ atoms.length = 3 then true
  else if n = 1 ∧ h = 3 ∧ atoms.length = 4 then true
  else if h = 2 ∧ atoms.length = 2 then true
  else if o = 2 ∧ atoms.length = 2 then true
  else if n = 2 ∧ atoms.length = 2 then true
  else if c = 1 ∧ o = 1 ∧ atoms.length = 2 then true
  else if n = 1 ∧ o = 1 ∧ atoms.length = 2 then true
  else if h = 1 ∧ f = 1 ∧ atoms.length = 2 then true
  else if 2 ≤ atoms.length ∧ atoms.length ≤ 6 then followsValenceRules atoms
  else false

/-- `calculateAtomMoleculeActivationEnergy`. -/
def calculateAtomMoleculeActivationEnergy (atom : Atom) (mol : Sim.Molecule) : ℚ :=
  if atom.protons = 6 ∧ nameIncludes mol.name ("Oxygen Gas") then 15
  else if atom.protons = 1 ∧ nameIncludes mol.name ("Oxygen") then 8
  else 10 + mol.atomIds.length * 3

/-- `canAtomJoinMolecule`. -/
def canAtomJoinMolecule (s : OState) (atom : Atom) (mol : Sim.Molecule)
    (systemEnergy : ℚ) : Bool :=
  isChemicallyStable (atom :: atomsOfIds s mol.atomIds) &&
    decide (systemEnergy ≥ calculateAtomMoleculeActivationEnergy atom mol)

/-- `addAtomToMolecule`: dissolve the molecule, free its atoms, deduct the
activation cost; the optimal-structure rebuild runs in a deferred timeout. -/
def addAtomToMolecule (s : OState) (atom : Atom) (mol : Sim.Molecule) : OState :=
  let s1 := { s with molecules := s.molecules.filter (fun m => m.id ≠ mol.id) }
  let allIds := atom.id :: mol.atomIds
  let s2 := setMembers s1 allIds false
  let energyConsumed := calculateAtomMoleculeActivationEnergy atom mol
  let s3 := { s2 with
                transientHeatEnergy := max 0 (s2.transientHeatEnergy - energyConsumed) }
  addPending s3 (.deferredOptimal allIds)

/-- `performGenericAtomMoleculeReaction`: take the reaction lock, then add the
atom to the molecule. -/
def performGenericAtomMoleculeReaction (s : OState) (atom : Atom)
    (mol : Sim.Molecule) : OState :=
  addAtomToMolecule { s with reactionInProgress := true } atom mol

/-- `createMoleculeFromAtoms`: free the atoms now; bond creation, the
processed-set update and re-membering run in a 50ms timeout (recorded). -/
def createMoleculeFromAtoms (s : OState) (ids : List ℕ) (processed : List ℕ) :
    OState × List ℕ :=
  (addPending (setMembers s ids false) (.finishMolecule ids), processed)

/-- `formSpecificMolecule`: pick the first matching atoms (by list order) for
the requested stoichiometry among the not-yet-processed ones. -/
def formSpecificMolecule (s : OState) (ids : List ℕ) (processed : List ℕ)
    (moleculeType : String) : OState × List ℕ :=
  let availableAtoms := ids.filter (fun i => ¬ processed.contains i)
  if moleculeType = "H2O" then
    match availableAtoms.filter (fun i => protonsOf s i = 8),
          availableAtoms.filter (fun i => protonsOf s i = 1) with
    | o0 :: _, h0 :: h1 :: _ => createMoleculeFromAtoms s [o0, h0, h1] processed
    | _, _ => (s, processed)
  else if moleculeType = "CH4" then
    match availableAtoms.filter (fun i => protonsOf s i = 6),
          availableAtoms.filter (fun i => protonsOf s i = 1) with
    | c0 :: _, h0 :: h1 :: h2 :: h3 :: _ =>
        createMoleculeFromAtoms s [c0, h0, h1, h2, h3] processed
    | _, _ => (s, processed)
  else if moleculeType = "NH3" then
    match availableAtoms.filter (fun i => protonsOf s i = 7),
          availableAtoms.filter (fun i => protonsOf s i = 1) with
    | n0 :: _, h0 :: h1 :: h2 :: _ =>
        createMoleculeFromAtoms s [n0, h0, h1, h2] processed
    | _, _ => (s, processed)
  else (s, processed)

/-- `formDiatomicMolecules`: group the unprocessed atoms by element and pair
them off in order. -/
def formDiatomicMolecules (s : OState) (ids : List ℕ) (processed : List ℕ) :
    OState × List ℕ :=
  let availableAtoms := ids.filter (fun i => ¬ processed.contains i)
  let groups := (firstDedup (availableAtoms.map (protonsOf s))).map
    (fun p => availableAtoms.filter (fun i => protonsOf s i = p))
  groups.foldl
    (fun st grp =>
      (pairOff grp).foldl
        (fun st2 pr =>
          if ¬ st2.2.contains pr.1 ∧ ¬ st2.2.contains pr.2 then
            createMoleculeFromAtoms st2.1 [pr.1, pr.2] st2.2
          else st2)
        st)
    (s, processed)

/-- Count the passed atoms of element `p` that are not yet processed. -/
def countUnprocessed (s : OState) (ids : List ℕ) (processed : List ℕ) (p : ℕ) : ℕ :=
  (ids.filter (fun i => protonsOf s i = p ∧ ¬ processed.contains i)).length

/-- `formMoleculesFromAtoms`: water first, then methane, ammonia, and diatomic
leftovers; identification and the lock release run in a 200ms timeout.  The
processed-atom set is only extended inside deferred continuations, so it stays
empty during this synchronous pass; it is threaded faithfully regardless. -/
def formMoleculesFromAtoms (s : OState) (ids : List ℕ) : OState :=
  let processed : List ℕ := []
  let h := countUnprocessed s ids processed 1
  let o := countUnprocessed s ids processed 8
  let waterMolecules := if h ≥ 2 ∧ o ≥ 1 then min (h / 2) o else 0
  let st1 := (List.range waterMolecules).foldl
    (fun (st : OState × List ℕ) _ => formSpecificMolecule st.1 ids st.2 ("H2O"))
    (s, processed)
  let remainingH := countUnprocessed st1.1 ids st1.2 1
  let remainingC := countUnprocessed st1.1 ids st1.2 6
  let methaneMolecules :=
    if remainingH ≥ 4 ∧ remainingC ≥ 1 then min (remainingH / 4) remainingC else 0
  let st2 := (List.range methaneMolecules).foldl
    (fun (st : OState × List ℕ) _ => formSpecificMolecule st.1 ids st.2 ("CH4")) st1
  let stillRemainingH := countUnprocessed st2.1 ids st2.2 1
  let remainingN := countUnprocessed st2.1 ids st2.2 7
  let ammoniaMolecules :=
    if stillRemainingH ≥ 3 ∧ remainingN ≥ 1 then min (stillRemainingH / 3) remainingN else 0
  let st3 := (List.range ammoniaMolecules).foldl
    (fun (st : OState × List ℕ) _ => formSpecificMolecule st.1 ids st.2 ("NH3")) st2
  let st4 := formDiatomicMolecules st3.1 ids st3.2
  addPending st4.1 .identifyAndUnlock

/-- `performGenericMoleculeReaction`: take the lock, dissolve the reactant
molecules, free their atoms, deduct `max(10, 0.7·E)`, then reform molecules. -/
def performGenericMoleculeReaction (s : OState) (mols : List Sim.Molecule)
    (systemEnergy : ℚ) : OState :=
  let s1 := { s with reactionInProgress := true }
  let s2 := { s1 with
                molecules := s1.molecules.filter
                  (fun m => ¬ mols.any (fun r => r.id = m.id)) }
  let allIds := (mols.map (·.atomIds)).flatten
  let s3 := setMembers s2 allIds false
  let energyConsumed := max 10 (systemEnergy * 0.7)
  let s4 := { s3 with
                transientHeatEnergy := max 0 (s3.transientHeatEnergy - energyConsumed) }
  formMoleculesFromAtoms s4 allIds

/-- `checkOtherMoleculeMoleculeReactions`: methane (`C + 2H₂`) then ammonia
(`N + 3H₂`) formation from a free atom plus nearby hydrogen-gas molecules. -/
def checkOtherMoleculeMoleculeReactions (s : OState) (env : Env)
    (systemEnergy : ℚ) : OState :=
  let h2Molecules := s.molecules.filter (fun m => nameIncludes m.name ("Hydrogen Gas"))
  let freeCarbon := s.atoms.filter (fun a => ¬ a.isMoleculeMember ∧ a.protons = 6)
  let carbonHit :=
    if freeCarbon.length ≥ 1 ∧ h2Molecules.length ≥ 2 ∧ systemEnergy ≥ 15 then
      freeCarbon.find? (fun carbon =>
        (h2Molecules.filter (fun h2 => env.amdist carbon.id h2.id < 10)).length ≥ 2)
    else none
  match carbonHit with
  | some carbon =>
      let reactantMolecules :=
        (h2Molecules.filter (fun h2 => env.amdist carbon.id h2.id < 10)).take 2
      let allIds := carbon.id :: (reactantMolecules.map (·.atomIds)).flatten
      let s1 := { s with
                    molecules := s.molecules.filter
                      (fun m => ¬ reactantMolecules.any (fun r => r.id = m.id)) }
      let s2 := setMembers s1 allIds false
      let s3 := { s2 with reactionInProgress := true }
      let energyConsumed := max 15 (systemEnergy * 0.6)
      let s4 := { s3 with
                    transientHeatEnergy := max 0 (s3.transientHeatEnergy - energyConsumed) }
      formMoleculesFromAtoms s4 allIds
  | none =>
      let freeNitrogen := s.atoms.filter (fun a => ¬ a.isMoleculeMember ∧ a.protons = 7)
      let nitrogenHit :=
        if freeNitrogen.length ≥ 1 ∧ h2Molecules.length ≥ 3 ∧ systemEnergy ≥ 18 then
          freeNitrogen.find? (fun nitrogen =>
            (h2Molecules.filter (fun h2 => env.amdist nitrogen.id h2.id < 10)).length ≥ 3)
        else none
      match nitrogenHit with
      | some nitrogen =>
          let reactantMolecules :=
            (h2Molecules.filter (fun h2 => env.amdist nitrogen.id h2.id < 10)).take 3
          let allIds := nitrogen.id :: (reactantMolecules.map (·.atomIds)).flatten
          let s1 := { s with
                        molecules := s.molecules.filter
                          (fun m => ¬ reactantMolecules.any (fun r => r.id = m.id)) }
          let s2 := setMembers s1 [nitrogen.id] false
          let s3 := { s2 with reactionInProgress := true }
          let energyConsumed := max 18 (systemEnergy * 0.7)
          let s4 := { s3 with
                        transientHeatEnergy :=
                          max 0 (s3.transientHeatEnergy - energyConsumed) }
          formMoleculesFromAtoms s4 allIds
      | none => s

/-- `attemptMoleculeMoleculeReactions`: the `2H₂ + O₂ → 2H₂O` pattern, else the
other molecule-molecule patterns. -/
def attemptMoleculeMoleculeReactions (s : OState) (env : Env)
    (systemEnergy : ℚ) : OState :=
  let h2Molecules := s.molecules.filter (fun m => nameIncludes m.name ("Hydrogen Gas"))
  let o2Molecules := s.molecules.filter (fun m => nameIncludes m.name ("Oxygen Gas"))
  let o2Hit :=
    if h2Molecules.length ≥ 2 ∧ o2Molecules.length ≥ 1 then
      o2Molecules.find? (fun o2 =>
        (h2Molecules.filter (fun h2 => env.mdist h2.id o2.id < 10)).length ≥ 2 ∧
          systemEnergy ≥ 12)
    else none
  match o2Hit with
  | some o2 =>
      let nearbyH2 := h2Molecules.filter (fun h2 => env.mdist h2.id o2.id < 10)
      performGenericMoleculeReaction s (nearbyH2.take 2 ++ [o2]) systemEnergy
  | none => checkOtherMoleculeMoleculeReactions s env systemEnergy

/-- `attemptAtomMoleculeCombinations`: first close, joinable atom–molecule pair
reacts; otherwise fall through to the multi-atom scan. -/
def findAtomMoleculePair (s : OState) (env : Env) (systemEnergy : ℚ) :
    Option (Atom × Sim.Molecule) :=
  s.atoms.findSome? (fun atom =>
    if atom.isMoleculeMember then none
    else
      (s.molecules.find? (fun mol =>
        decide (env.amdist atom.id mol.id < 8) && canAtomJoinMolecule s atom mol systemEnergy)).map
        (fun mol => (atom, mol)))

/-- Result of the multi-atom proximity scan. -/
inductive MultiAction where
  | pairBond (a b : Atom)
  | tripleGroup (a b c : Atom)
deriving Repr, DecidableEq

/-- Inner `k` loop of `attemptMultiAtomCombinations`. -/
def findTripleC (env : Env) (systemEnergy : ℚ) (atomA atomB : Atom)
    (ks : List Atom) : Option MultiAction :=
  (ks.find? (fun atomC =>
      decide (env.adist atomA.id atomC.id < 6) &&
      decide (env.adist atomB.id atomC.id < 6) &&
      isChemicallyStable [atomA, atomB, atomC] &&
      decide (systemEnergy ≥ 20))).map (fun atomC => .tripleGroup atomA atomB atomC)

/-- Middle `j` loop of `attemptMultiAtomCombinations`. -/
def searchJ (env : Env) (systemEnergy : ℚ) (atomA : Atom) :
    List Atom → Option MultiAction
  | [] => none
  | atomB :: ks =>
      if env.adist atomA.id atomB.id < 6 then
        ((if isChemicallyStable [atomA, atomB] &&
             decide (systemEnergy ≥ getMinimumActivationEnergy atomA atomB) then
            some (.pairBond atomA atomB)
          else none) <|>
         findTripleC env systemEnergy atomA atomB ks <|>
         searchJ env systemEnergy atomA ks)
      else searchJ env systemEnergy atomA ks

/-- Outer `i` loop of `attemptMultiAtomCombinations`. -/
def searchI (env : Env) (systemEnergy : ℚ) : List Atom → Option MultiAction
  | [] => none
  | atomA :: rest => searchJ env systemEnergy atomA rest <|> searchI env systemEnergy rest

/-- `createOptimalMolecularStructure`: take the lock and free the atoms; the
kinematic staging is external, and bonding/energy/identify/unlock all run in
the deferred timeouts. -/
def createOptimalMolecularStructure (s : OState) (atoms : List Atom) : OState :=
  let s1 := { s with reactionInProgress := true }
  let s2 := setMembers s1 (atoms.map (·.id)) false
  addPending s2 (.optimalBondsAndIdentify (atoms.map (·.id)))

/-- `attemptMultiAtomCombinations`: act on the first hit of the scan. -/
def attemptMultiAtomCombinations (s : OState) (env : Env) (systemEnergy : ℚ) : OState :=
  let freeAtoms := s.atoms.filter (fun a => ¬ a.isMoleculeMember)
  match searchI env systemEnergy freeAtoms with
  | some (.pairBond atomA atomB) =>
      addPending (createBond s env atomA atomB true) .identifyLater
  | some (.tripleGroup atomA atomB atomC) =>
      createOptimalMolecularStructure s [atomA, atomB, atomC]
  | none => s

/-- `attemptAtomMoleculeCombinations`. -/
def attemptAtomMoleculeCombinations (s : OState) (env : Env) (systemEnergy : ℚ) : OState :=
  match findAtomMoleculePair s env systemEnergy with
  | some (atom, mol) => performGenericAtomMoleculeReaction s atom mol
  | none => attemptMultiAtomCombinations s env systemEnergy

/-- `attemptComplexMolecularFormation`: molecule+molecule, then atom+molecule,
then free multi-atom clusters, each attempted only while no reaction started. -/
def attemptComplexMolecularFormation (s : OState) (env : Env) (systemEnergy : ℚ) : OState :=
  let s1 := attemptMoleculeMoleculeReactions s env systemEnergy
  let s2 := if ¬ s1.reactionInProgress then attemptAtomMoleculeCombinations s1 env systemEnergy else s1
  if ¬ s2.reactionInProgress then attemptMultiAtomCombinations s2 env systemEnergy else s2

/-- `attemptMolecularReactions` (claim C9's lines 1621–1630): reaction-lock
guard, heat threshold, then the complex-formation attempts. -/
def attemptMolecularReactions (s : OState) (env : Env) : OState :=
  if s.reactionInProgress then s
  else if s.transientHeatEnergy > 20 then
    attemptComplexMolecularFormation s env (calculateSystemEnergy s env)
  else s

end OldSim

/-! ## The transient-heat-energy scalar and its operations
Every mutation of `transientHeatEnergy` found in the two components. -/

/-- The operations that mutate `transientHeatEnergy`:
* `add`: `addSystemEnergy`, `h = min(100, h + amount)`;
* `decayTick`: the per-tick decay of the current component,
  `if (h > 0) { h *= decayRate; if (h < 0.1) h = 0 }`;
* `decayTickOld`: the per-tick decay of the older component,
  `if (h > 0) { h *= 0.96; if (h < 0.01) h = 0 }`;
* `consume`: `h = max(0, h - cost)` (`consumeActivationEnergy` and every
  reaction-cost deduction);
* `scaleBurn`: `h *= 0.7` (`attemptComplexReaction`);
* `heatPulse`: `applyGlobalHeatPulse`,
  `h = max(h, max(0, intensity) * pulseEnergyBoost)`;
* `reset`: `resetSystemEnergy`, `h = 0`. -/
inductive HeatOp where
  | add (amount : ℚ)
  | decayTick (decayRate : ℚ)
  | decayTickOld
  | consume (cost : ℚ)
  | scaleBurn
  | heatPulse (intensity boost : ℚ)
  | reset
deriving Repr, DecidableEq

/-- One step of the heat-energy state machine. -/
def applyHeatOp (h : ℚ) : HeatOp → ℚ
  | .add amount => min 100 (h + amount)
  | .decayTick decayRate => if 0 < h then (if h * decayRate < 0.1 then 0 else h * decayRate) else h
  | .decayTickOld => if 0 < h then (if h * 0.96 < 0.01 then 0 else h * 0.96) else h
  | .consume cost => max 0 (h - cost)
  | .scaleBurn => h * 0.7
  | .heatPulse intensity boost => max h (max 0 intensity * boost)
  | .reset => 0

/-- Operation well-formedness as the callers establish it: added amounts are
the nonnegative UI increments (5 and 20), and decay rates are the nonnegative
mode constants (0.96–0.998). -/
def heatOpWF : HeatOp → Prop
  | .add amount => 0 ≤ amount
  | .decayTick decayRate => 0 ≤ decayRate
  | _ => True

/-! ## Claim-side definitions
These two definitions follow the claims' wording (not the source); they exist
only to be compared against the source-derived definitions above. -/

/-- Modelled from claim C8's words: the fixed VSEPR table on
`(totalPairs, lonePairs)` — 2 pairs → linear; 3 → trigonal_planar or bent;
4 → tetrahedral, trigonal_pyramidal, or bent; 5 → trigonal_bipyramidal,
seesaw, T_shaped, or linear; 6 → octahedral, square_pyramidal, or
square_planar; no entry → complex. -/
def claimVseprTable (totalPairs lonePairs : ℚ) : String :=
  if totalPairs = 2 then "linear"
  else if totalPairs = 3 ∧ lonePairs = 0 then "trigonal_planar"
  else if totalPairs = 3 then "bent"
  else if totalPairs = 4 ∧ lonePairs = 0 then "tetrahedral"
  else if totalPairs = 4 ∧ lonePairs = 1 then "trigonal_pyramidal"
  else if totalPairs = 4 ∧ lonePairs = 2 then "bent"
  else if totalPairs = 5 ∧ lonePairs = 0 then "trigonal_bipyramidal"
  else if totalPairs = 5 ∧ lonePairs = 1 then "seesaw"
  else if totalPairs = 5 ∧ lonePairs = 2 then "T_shaped"
  else if totalPairs = 5 ∧ lonePairs = 3 then "linear"
  else if totalPairs = 6 ∧ lonePairs = 0 then "octahedral"
  else if totalPairs = 6 ∧ lonePairs = 1 then "square_pyramidal"
  else if totalPairs = 6 ∧ lonePairs = 2 then "square_planar"
  else "complex"

/-- Modelled from claim C8's words: `lonePairs = max(0, (valenceElectrons −
2×bondsAtCenter) / 2)`, `totalPairs = bondsAtCenter + lonePairs`, then the
fixed table. -/
def claimGeometry (valenceElectronCount bondsAtCenter : ℕ) : String :=
  let lonePairs : ℚ := max 0 (((valenceElectronCount : ℚ) - 2 * bondsAtCenter) / 2)
  let totalPairs : ℚ := bondsAtCenter + lonePairs
  claimVseprTable totalPairs lonePairs

/-- Modelled from claim C7's words: the member atom ids sorted in ascending
numeric order and joined by the separator. -/
def claimNumericAscendingId (ids : List ℕ) : String :=
  String.intercalate ("-") ((List.insertionSort (fun a b => a ≤ b) ids).map (fun i => toString i))

/-! ## Auxiliary definitions for the theorems below -/

/-- Number of bond records of the component state for the unordered pair, in
either id orientation. -/
def pairBondCount (s : Sim.SimState) (atomA atomB : Atom) : ℕ :=
  (s.bonds.filter (fun bond =>
    bond.id = toString atomA.id ++ "-" ++ toString atomB.id ∨
    bond.id = toString atomB.id ++ "-" ++ toString atomA.id)).length

/-- A composition matching none of the rows of the `identifyMoleculeType`
table. -/
def noKnownComposition (atoms : List Atom) : Prop :=
  ¬ (Sim.countsOf atoms 8 = 1 ∧ Sim.countsOf atoms 1 = 2 ∧ atoms.length = 3) ∧
  ¬ (Sim.countsOf atoms 6 = 1 ∧ Sim.countsOf atoms 8 = 2 ∧ atoms.length = 3) ∧
  ¬ (Sim.countsOf atoms 6 = 1 ∧ Sim.countsOf atoms 1 = 4 ∧ atoms.length = 5) ∧
  ¬ (Sim.countsOf atoms 7 = 1 ∧ Sim.countsOf atoms 1 = 3 ∧ atoms.length = 4) ∧
  ¬ (Sim.countsOf atoms 1 = 2 ∧ atoms.length = 2) ∧
  ¬ (Sim.countsOf atoms 8 = 2 ∧ atoms.length = 2) ∧
  ¬ (Sim.countsOf atoms 7 = 2 ∧ atoms.length = 2)

/-- The catalog's hydrogen record. -/
def elH : ChemicalElement := ⟨1, "H", "Hydrogen", 1, 1, 2.20, 0.37, 13.6, 0.75, [-1, 1]⟩

/-- The catalog's oxygen record. -/
def elO : ChemicalElement := ⟨8, "O", "Oxygen", 6, 2, 3.44, 0.73, 13.6, 1.46, [-2, -1, 0, 1, 2]⟩

/-- Concrete hydrogen atoms (ids 0, 1, 2) and an oxygen atom (id 3). -/
def atomH0 : Atom := ⟨0, 1, "Hydrogen-1", false⟩

def atomH1 : Atom := ⟨1, 1, "Hydrogen-1", false⟩

def atomH2 : Atom := ⟨2, 1, "Hydrogen-1", false⟩

def atomO3 : Atom := ⟨3, 8, "Oxygen-16", false⟩

/-- A state of the current component with three free hydrogens in which atoms
0 and 1 are already bonded (so atom 0 is at hydrogen's max bond count 1). -/
def stateHH : Sim.SimState :=
  ⟨[atomH0, atomH1, atomH2], [⟨"0-1", 0, 1⟩], [], [], [], 0, [], []⟩

/-- A state with exactly the two bonded hydrogens 0 and 1. -/
def stateH2Pair : Sim.SimState :=
  ⟨[atomH0, atomH1], [⟨"0-1", 0, 1⟩], [], [], [], 0, [], []⟩

/-- Two bonded hydrogen atoms whose ids are 2 and 10: the decimal string "10"
sorts before "2" under the default JavaScript sort. -/
def stateIds2and10 : Sim.SimState :=
  ⟨[⟨2, 1, "Hydrogen-1", false⟩, ⟨10, 1, "Hydrogen-1", false⟩],
   [⟨"2-10", 2, 10⟩], [], [], [], 0, [], []⟩

/-- A state of the older component with the reaction lock held. -/
def lockedState : OldSim.OState :=
  ⟨[atomH0, atomH1], [], [], [], [], 30, true, 0, [], [], []⟩

/-- A trivial environment (all distances and kinetic contributions zero). -/
def zeroEnv : OldSim.Env :=
  ⟨0, 0, fun _ _ => 0, fun _ _ => 0, fun _ _ => 0⟩

/-! ## Theorems -/

theorem charListLe_total : ∀ as bs : List Char,
    Sim.charListLe as bs = true ∨ Sim.charListLe bs as = true
  | [], _ => Or.inl rfl
  | _ :: _, [] => Or.inr rfl
  | a :: as, b :: bs => by
      simp only [Sim.charListLe]
      rcases Nat.lt_trichotomy a.toNat b.toNat with h | h | h
      · left; simp [h]
      · have hab : ¬ a.toNat < b.toNat := by omega
        have hba : ¬ b.toNat < a.toNat := by omega
        simpa [hab, hba] using charListLe_total as bs
      · right; simp [h]

theorem charListLe_trans : ∀ as bs cs : List Char,
    Sim.charListLe as bs = true → Sim.charListLe bs cs = true →
      Sim.charListLe as cs = true
  | [], _, _ => fun _ _ => rfl
  | _ :: _, [], _ => fun h1 _ => (Bool.false_ne_true h1).elim
  | _ :: _, _ :: _, [] => fun _ h2 => (Bool.false_ne_true h2).elim
  | a :: as, b :: bs, c :: cs => fun h1 h2 => by
      simp only [Sim.charListLe] at h1 h2 ⊢
      split_ifs at h1 h2 ⊢ <;>
        first
          | rfl
          | omega
          | exact (Bool.false_ne_true h1).elim
          | exact (Bool.false_ne_true h2).elim
          | exact charListLe_trans as bs cs h1 h2

theorem charListLe_antisymm : ∀ as bs : List Char,
    Sim.charListLe as bs = true → Sim.charListLe bs as = true → as = bs
  | [], [] => fun _ _ => rfl
  | [], _ :: _ => fun _ h2 => (Bool.false_ne_true h2).elim
  | _ :: _, [] => fun h1 _ => (Bool.false_ne_true h1).elim
  | a :: as, b :: bs => fun h1 h2 => by
      simp only [Sim.charListLe] at h1 h2
      split_ifs at h1 h2 <;>
        first
          | omega
          | exact (Bool.false_ne_true h1).elim
          | exact (Bool.false_ne_true h2).elim
          | (have h3 : a.toNat = b.toNat := by omega
             have hcc : a = b := Char.ext (UInt32.ext h3)
             rw [hcc, charListLe_antisymm as bs h1 h2])

instance : IsTrans String Sim.jsStrLe :=
  ⟨fun _ _ _ h1 h2 => charListLe_trans _ _ _ h1 h2⟩

instance : IsAntisymm String Sim.jsStrLe :=
  ⟨fun _ _ h1 h2 => String.ext (charListLe_antisymm _ _ h1 h2)⟩

instance : IsTotal String Sim.jsStrLe :=
  ⟨fun _ _ => charListLe_total _ _⟩

/-- C7 (amended): the canonical molecule id is invariant under reordering of
the member atom ids — re-identifying the same atom set always yields the same
id string. -/
theorem C7_canonical_id_amended (l1 l2 : List ℕ) (h : l1.Perm l2) :
    Sim.moleculeIdOf l1 = Sim.moleculeIdOf l2 := by
  unfold Sim.moleculeIdOf
  congr 1
  apply List.eq_of_perm_of_sorted (r := Sim.jsStrLe)
  · exact (List.perm_insertionSort _ _).trans
      ((h.map _).trans (List.perm_insertionSort _ _).symm)
  · exact List.sorted_insertionSort _ _
  · exact List.sorted_insertionSort _ _

/-- C7 (counterexample): for the bonded pair with ids 2 and 10, molecule
identification produces the id "10-2" (JavaScript default string sort), not
the numeric-ascending "2-10" the claim states. -/
theorem C7_counterexample :
    (Sim.identifyMolecules stateIds2and10).molecules.map (fun m => m.id) = ["10-2"] ∧
    Sim.moleculeIdOf [2, 10] = "10-2" ∧
    claimNumericAscendingId [2, 10] = "2-10" ∧
    ("10-2" : String) ≠ "2-10" := by
  refine ⟨by decide, by decide, by decide, by decide⟩

/-- C7 witness: the amended theorem applied to the two orderings of the set
of ids 2 and 10. -/
theorem C7_witness :
    ([2, 10] : List ℕ).Perm [10, 2] ∧ Sim.moleculeIdOf [2, 10] = Sim.moleculeIdOf [10, 2] :=
  ⟨by decide, C7_canonical_id_amended [2, 10] [10, 2] (by decide)⟩

/-- C6: `addSystemEnergy` (the spec's `addEnergy`) sets the transient heat
energy to the minimum of the configured maximum 100 and the previous value
plus the added amount, for every state and every amount. -/
theorem C6_addEnergy_capped_additive (s : Sim.SimState) (amount : ℚ) :
    (Sim.addSystemEnergy s amount).transientHeatEnergy =
      min 100 (s.transientHeatEnergy + amount) := rfl

/-- One heat-energy operation preserves nonnegativity. -/
theorem applyHeatOp_nonneg (h : ℚ) (op : HeatOp) (hh : 0 ≤ h) (hop : heatOpWF op) :
    0 ≤ applyHeatOp h op := by
  cases op with
  | add amount =>
      exact le_min (by norm_num) (add_nonneg hh hop)
  | decayTick decayRate =>
      simp only [applyHeatOp]
      split_ifs with h1 h2
      · exact le_refl 0
      · exact mul_nonneg hh hop
      · exact hh
  | decayTickOld =>
      simp only [applyHeatOp]
      split_ifs with h1 h2
      · exact le_refl 0
      · exact mul_nonneg hh (by norm_num)
      · exact hh
  | consume cost => exact le_max_left 0 _
  | scaleBurn => exact mul_nonneg hh (by norm_num)
  | heatPulse intensity boost => exact le_trans hh (le_max_left _ _)
  | reset => exact le_refl 0

/-- C5: `transientHeatEnergy` stays nonnegative along every sequence of
add / per-tick-decay / consume operations (together with the other mutations
of the scalar found in the sources). -/
theorem C5_heat_energy_nonneg (ops : List HeatOp) (h0 : ℚ) (hh : 0 ≤ h0)
    (hops : ∀ op ∈ ops, heatOpWF op) : 0 ≤ ops.foldl applyHeatOp h0 := by
  induction ops generalizing h0 with
  | nil => exact hh
  | cons op rest ih =>
      exact ih (applyHeatOp h0 op)
        (applyHeatOp_nonneg h0 op hh (hops op (List.mem_cons_self op rest)))
        (fun o ho => hops o (List.mem_cons_of_mem op ho))

/-- C5 witness: a concrete operation sequence (two adds, mode decay, old-style
decay, a consume, the 30% burn, a heat pulse, a reset, one more add). -/
theorem C5_witness :
    (0 : ℚ) ≤ 0 ∧
    0 ≤ ([HeatOp.add 5, HeatOp.add 5, HeatOp.decayTick (99/100), HeatOp.decayTickOld,
          HeatOp.consume 3, HeatOp.scaleBurn, HeatOp.heatPulse 5 3, HeatOp.reset,
          HeatOp.add 20] : List HeatOp).foldl applyHeatOp 0 := by
  refine ⟨le_refl 0, C5_heat_energy_nonneg _ 0 (le_refl 0) ?_⟩
  intro op hop
  simp only [List.mem_cons, List.not_mem_nil, or_false] at hop
  rcases hop with rfl | rfl | rfl | rfl | rfl | rfl | rfl | rfl | rfl <;>
    simp only [heatOpWF] <;> norm_num

/-- C9: while the reaction-lock flag is set, both the per-tick bond scan and
the reaction attempts return immediately with the state unchanged. -/
theorem C9_reaction_lock (s : OldSim.OState) (env : OldSim.Env)
    (h : s.reactionInProgress = true) :
    OldSim.checkAndCreateBonds s env = s ∧ OldSim.attemptMolecularReactions s env = s := by
  constructor
  · unfold OldSim.checkAndCreateBonds
    rw [h]
    simp
  · unfold OldSim.attemptMolecularReactions
    rw [h]
    simp

/-- C9 witness: the lock-held state is fixed by both entry points. -/
theorem C9_witness :
    lockedState.reactionInProgress = true ∧
    OldSim.checkAndCreateBonds lockedState zeroEnv = lockedState ∧
    OldSim.attemptMolecularReactions lockedState zeroEnv = lockedState :=
  ⟨rfl, (C9_reaction_lock lockedState zeroEnv rfl).1, (C9_reaction_lock lockedState zeroEnv rfl).2⟩

theorem any_of_filter_length_one {α : Type} (l : List α) (p : α → Bool)
    (h : (l.filter p).length = 1) : l.any p = true := by
  have hne : l.filter p ≠ [] := by
    intro hnil
    rw [hnil] at h
    simp at h
  obtain ⟨x, hx⟩ := List.exists_mem_of_ne_nil _ hne
  obtain ⟨hxl, hpx⟩ := List.mem_filter.mp hx
  exact List.any_eq_true.mpr ⟨x, hxl, hpx⟩

/-- C4: requesting a bond for an unordered pair that already has its (unique)
bond record, in either id orientation, is a no-op: the state is unchanged and
exactly one record for the pair remains. -/
theorem C4_duplicate_bond_noop (s : Sim.SimState) (atomA atomB : Atom)
    (suppressIdentify : Bool) (h : pairBondCount s atomA atomB = 1) :
    Sim.createBond s atomA atomB suppressIdentify = s ∧
      pairBondCount (Sim.createBond s atomA atomB suppressIdentify) atomA atomB = 1 := by
  have hany := any_of_filter_length_one s.bonds _ h
  have hs : Sim.createBond s atomA atomB suppressIdentify = s := by
    simp only [Sim.createBond]
    rw [hany]
    simp
  exact ⟨hs, by rw [hs, h]⟩

/-- C4 witness: a second request for the already-bonded pair 0–1 (in both
orientations) leaves the state and the record count unchanged. -/
theorem C4_witness :
    pairBondCount stateH2Pair atomH0 atomH1 = 1 ∧
    Sim.createBond stateH2Pair atomH0 atomH1 false = stateH2Pair ∧
    pairBondCount (Sim.createBond stateH2Pair atomH0 atomH1 false) atomH0 atomH1 = 1 ∧
    pairBondCount stateH2Pair atomH1 atomH0 = 1 ∧
    Sim.createBond stateH2Pair atomH1 atomH0 true = stateH2Pair :=
  ⟨by decide, (C4_duplicate_bond_noop stateH2Pair atomH0 atomH1 false (by decide)).1,
   (C4_duplicate_bond_noop stateH2Pair atomH0 atomH1 false (by decide)).2,
   by decide, (C4_duplicate_bond_noop stateH2Pair atomH1 atomH0 true (by decide)).1⟩

/-- C10: `canFormBond` is monotone in its `systemEnergy` argument. -/
theorem C10_canFormBond_monotone (atomA atomB : Atom) (E E2 : ℚ) (hE : E ≤ E2)
    (h : Engine.canFormBond atomA atomB E = true) :
    Engine.canFormBond atomA atomB E2 = true := by
  unfold Engine.canFormBond at h ⊢
  cases hA : CHEMICAL_ELEMENTS atomA.protons with
  | none =>
      simp only [hA] at h
      exact (Bool.false_ne_true h).elim
  | some eA =>
    cases hB : CHEMICAL_ELEMENTS atomB.protons with
    | none =>
        simp only [hA, hB] at h
        exact (Bool.false_ne_true h).elim
    | some eB =>
      simp only [hA, hB] at h ⊢
      split_ifs at h ⊢
      cases hact : Engine.calculateActivationEnergy atomA atomB with
      | none =>
          simp only [hact] at h
          exact (Bool.false_ne_true h).elim
      | some act =>
          simp only [hact, decide_eq_true_iff] at h ⊢
          exact le_trans h hE

/-- C3: for catalogued elements the activation energy is the average
ionization energy times `(1 − |Δχ|/4)` times 0.1, floored at 1, and
`canFormBond` passes exactly when the earlier checks pass and the system
energy reaches that activation energy. -/
theorem C3_activation_formula_and_gate (atomA atomB : Atom) (E : ℚ)
    (eA eB : ChemicalElement)
    (hA : CHEMICAL_ELEMENTS atomA.protons = some eA)
    (hB : CHEMICAL_ELEMENTS atomB.protons = some eB) :
    Engine.calculateActivationEnergy atomA atomB =
      some (max ((eA.ionizationEnergy + eB.ionizationEnergy) / 2 *
        (1 - |eA.electronegativity - eB.electronegativity| / 4) * 0.1) 1) ∧
    (Engine.canFormBond atomA atomB E = true ↔
      (0 < eA.maxBonds ∧ 0 < eB.maxBonds ∧
       Engine.getCurrentBondCount atomA < eA.maxBonds ∧
       Engine.getCurrentBondCount atomB < eB.maxBonds ∧
       max ((eA.ionizationEnergy + eB.ionizationEnergy) / 2 *
         (1 - |eA.electronegativity - eB.electronegativity| / 4) * 0.1) 1 ≤ E)) := by
  have hact : Engine.calculateActivationEnergy atomA atomB =
      some (max ((eA.ionizationEnergy + eB.ionizationEnergy) / 2 *
        (1 - |eA.electronegativity - eB.electronegativity| / 4) * 0.1) 1) := by
    unfold Engine.calculateActivationEnergy
    simp only [hA, hB]
  refine ⟨hact, ?_⟩
  unfold Engine.canFormBond
  simp only [hA, hB, hact]
  split_ifs with h1 h2
  · simp only [Bool.false_eq_true, false_iff]
    rintro ⟨p1, p2, -, -, -⟩
    rcases h1 with h1 | h1 <;> omega
  · simp only [Bool.false_eq_true, false_iff]
    rintro ⟨-, -, p3, p4, -⟩
    rcases h2 with h2 | h2 <;> omega
  · simp only [decide_eq_true_iff, ge_iff_le]
    constructor
    · intro h5
      push_neg at h1 h2
      exact ⟨by omega, by omega, by omega, by omega, h5⟩
    · rintro ⟨-, -, -, -, h5⟩
      exact h5

/-- C10 witness: the monotone gate at hydrogen–hydrogen, energies 2 ≤ 3. -/
theorem C10_witness :
    (2 : ℚ) ≤ 3 ∧ Engine.canFormBond atomH0 atomH1 2 = true ∧
    Engine.canFormBond atomH0 atomH1 3 = true := by
  have hcf : Engine.canFormBond atomH0 atomH1 2 = true := by
    norm_num [Engine.canFormBond, Engine.calculateActivationEnergy,
      Engine.getCurrentBondCount, CHEMICAL_ELEMENTS, atomH0, atomH1, abs_zero]
  exact ⟨by norm_num, hcf, C10_canFormBond_monotone atomH0 atomH1 2 3 (by norm_num) hcf⟩

/-- C3 witness: the formula and the gate at the hydrogen–oxygen pair with
system energy 2. -/
theorem C3_witness :
    CHEMICAL_ELEMENTS atomH0.protons = some elH ∧
    CHEMICAL_ELEMENTS atomO3.protons = some elO ∧
    (Engine.calculateActivationEnergy atomH0 atomO3 =
      some (max ((elH.ionizationEnergy + elO.ionizationEnergy) / 2 *
        (1 - |elH.electronegativity - elO.electronegativity| / 4) * 0.1) 1) ∧
     (Engine.canFormBond atomH0 atomO3 2 = true ↔
       (0 < elH.maxBonds ∧ 0 < elO.maxBonds ∧
        Engine.getCurrentBondCount atomH0 < elH.maxBonds ∧
        Engine.getCurrentBondCount atomO3 < elO.maxBonds ∧
        max ((elH.ionizationEnergy + elO.ionizationEnergy) / 2 *
          (1 - |elH.electronegativity - elO.electronegativity| / 4) * 0.1) 1 ≤ 2))) :=
  ⟨rfl, rfl, C3_activation_formula_and_gate atomH0 atomO3 2 elH elO rfl rfl⟩

/-- C1 (counterexample): atom 0 is a hydrogen already holding its single
allowed bond, yet the engine-level check accepts a further request for the
pair (0, 2) — `getCurrentBondCount` is a stub returning 0 — and `createBond`
materializes the extra bond. -/
theorem C1_counterexample :
    Sim.countAtomBonds stateHH atomH0 = 1 ∧
    jsOrNat (Sim.maxBonds atomH0.protons) 4 = 1 ∧
    Engine.getCurrentBondCount atomH0 = 0 ∧
    Engine.canFormBond atomH0 atomH2 2 = true ∧
    (Sim.createBond stateHH atomH0 atomH2 true).bonds ≠ stateHH.bonds := by
  refine ⟨by decide, by decide, rfl, ?_, by decide⟩
  norm_num [Engine.canFormBond, Engine.calculateActivationEnergy,
    Engine.getCurrentBondCount, CHEMICAL_ELEMENTS, atomH0, atomH2, abs_zero]

/-- C1 (amended): the valence rejection is enforced by the component-level
`countAtomBonds` guards: with an endpoint at its max bond count the automatic
scan predicate `shouldFormBond` is false, and a manual request leaves the bond
set unchanged. -/
theorem C1_valence_guard_amended (s : Sim.SimState) (atomA atomB : Atom) (E : ℚ)
    (h : Sim.countAtomBonds s atomA ≥ jsOrNat (Sim.maxBonds atomA.protons) 4 ∨
         Sim.countAtomBonds s atomB ≥ jsOrNat (Sim.maxBonds atomB.protons) 4) :
    Sim.shouldFormBond s atomA atomB E = false ∧
    (Sim.createManualBond s atomA atomB).bonds = s.bonds := by
  constructor
  · unfold Sim.shouldFormBond
    split_ifs with h1
    · simp only [Bool.and_eq_false_iff, decide_eq_false_iff_not, Nat.not_lt]
      omega
    · rfl
  · simp only [Sim.createManualBond]
    split_ifs <;> rfl

/-- C1 witness: in `stateHH` atom 0 already has its one allowed bond; both
request paths reject the pair (0, 2). -/
theorem C1_amended_witness :
    (Sim.countAtomBonds stateHH atomH0 ≥ jsOrNat (Sim.maxBonds atomH0.protons) 4 ∨
     Sim.countAtomBonds stateHH atomH2 ≥ jsOrNat (Sim.maxBonds atomH2.protons) 4) ∧
    Sim.shouldFormBond stateHH atomH0 atomH2 2 = false ∧
    (Sim.createManualBond stateHH atomH0 atomH2).bonds = stateHH.bonds :=
  ⟨Or.inl (by decide),
   (C1_valence_guard_amended stateHH atomH0 atomH2 2 (Or.inl (by decide))).1,
   (C1_valence_guard_amended stateHH atomH0 atomH2 2 (Or.inl (by decide))).2⟩

/-- C2: components are classified by first matching the fixed composition
table — two hydrogens are "Hydrogen Gas (H₂)", 1 O + 2 H in a 3-atom component
is Water with bent geometry, unmatched compositions get the generated fallback
name — and identification reports one such molecule for the bonded H–H pair. -/
theorem C2_table_first_classification (atoms : List Atom) :
    ((Sim.countsOf atoms 1 = 2 ∧ atoms.length = 2) →
      (Sim.identifyMoleculeType atoms).name = "Hydrogen Gas (H₂)") ∧
    ((Sim.countsOf atoms 8 = 1 ∧ Sim.countsOf atoms 1 = 2 ∧ atoms.length = 3) →
      Sim.identifyMoleculeType atoms = ⟨"Water (H₂O)", "bent", 2.0⟩) ∧
    (noKnownComposition atoms →
      (Sim.identifyMoleculeType atoms).name =
        "Compound (" ++ Sim.generateMolecularFormula atoms ++ ")") ∧
    (Sim.identifyMolecules stateH2Pair).molecules.map (fun m => m.name) =
      ["Hydrogen Gas (H₂)"] := by
  refine ⟨?_, ?_, ?_, by decide⟩
  · rintro ⟨hh, hl⟩
    simp only [Sim.identifyMoleculeType]
    split_ifs <;> first | rfl | omega
  · rintro ⟨h8, h1c, hl⟩
    simp only [Sim.identifyMoleculeType]
    rw [if_pos ⟨h8, h1c, hl⟩]
  · rintro ⟨n1, n2, n3, n4, n5, n6, n7⟩
    simp only [Sim.identifyMoleculeType]
    rw [if_neg n1, if_neg n2, if_neg n3, if_neg n4, if_neg n5, if_neg n6, if_neg n7]

/-- C2 witness: the table case for two hydrogen atoms. -/
theorem C2_witness :
    (Sim.countsOf [atomH0, atomH1] 1 = 2 ∧ ([atomH0, atomH1] : List Atom).length = 2) ∧
    (Sim.identifyMoleculeType [atomH0, atomH1]).name = "Hydrogen Gas (H₂)" :=
  ⟨by decide, (C2_table_first_classification [atomH0, atomH1]).1 (by decide)⟩

/-- C8 (counterexample): a two-atom H–O molecule with known central atom O is
classified "linear" by the early size-2 return, while the claim computation
(valence 6, one bond at the center → 3 pairs, 2 lone) yields "bent". -/
theorem C8_counterexample :
    Engine.determineGeometry [atomH0, atomO3] [(0, 3)] (some atomO3) = "linear" ∧
    claimGeometry 6 1 = "bent" ∧
    ("linear" : String) ≠ "bent" := by
  refine ⟨rfl, ?_, by decide⟩
  norm_num [claimGeometry, claimVseprTable]

/-- The source's nested VSEPR `switch` coincides with the claim's flat table
for all pair counts. -/
theorem vseprChain_eq (tp lp : ℚ) :
    (if tp = 2 then "linear"
     else if tp = 3 then
       if lp = 0 then "trigonal_planar" else "bent"
     else if tp = 4 then
       if lp = 0 then "tetrahedral"
       else if lp = 1 then "trigonal_pyramidal"
       else if lp = 2 then "bent"
       else "complex"
     else if tp = 5 then
       if lp = 0 then "trigonal_bipyramidal"
       else if lp = 1 then "seesaw"
       else if lp = 2 then "T_shaped"
       else if lp = 3 then "linear"
       else "complex"
     else if tp = 6 then
       if lp = 0 then "octahedral"
       else if lp = 1 then "square_pyramidal"
       else if lp = 2 then "square_planar"
       else "complex"
     else "complex") = claimVseprTable tp lp := by
  unfold claimVseprTable
  by_cases h2 : tp = 2
  · simp [h2]
  by_cases h3 : tp = 3
  · by_cases l0 : lp = 0 <;> simp [h2, h3, l0]
  by_cases h4 : tp = 4
  · by_cases l0 : lp = 0
    · simp [h2, h3, h4, l0]
    by_cases l1 : lp = 1
    · simp [h2, h3, h4, l0, l1]
    by_cases l2 : lp = 2 <;> simp [h2, h3, h4, l0, l1, l2]
  by_cases h5 : tp = 5
  · by_cases l0 : lp = 0
    · simp [h2, h3, h4, h5, l0]
    by_cases l1 : lp = 1
    · simp [h2, h3, h4, h5, l0, l1]
    by_cases l2 : lp = 2
    · simp [h2, h3, h4, h5, l0, l1, l2]
    by_cases l3 : lp = 3 <;> simp [h2, h3, h4, h5, l0, l1, l2, l3]
  by_cases h6 : tp = 6
  · by_cases l0 : lp = 0
    · simp [h2, h3, h4, h5, h6, l0]
    by_cases l1 : lp = 1
    · simp [h2, h3, h4, h5, h6, l0, l1]
    by_cases l2 : lp = 2 <;> simp [h2, h3, h4, h5, h6, l0, l1, l2]
  simp [h2, h3, h4, h5, h6]

/-- C8 (amended): for components of at least three atoms with a catalogued
central atom, `determineGeometry` agrees with the claim's lone-pair formula
plus the fixed VSEPR table. -/
theorem C8_geometry_amended (atoms : List Atom) (bonds : List (ℕ × ℕ))
    (central : Atom) (element : ChemicalElement) (h3 : 3 ≤ atoms.length)
    (hel : CHEMICAL_ELEMENTS central.protons = some element) :
    Engine.determineGeometry atoms bonds (some central) =
      claimGeometry element.valenceElectrons
        ((bonds.filter (fun b => b.1 = central.id ∨ b.2 = central.id)).length) := by
  unfold Engine.determineGeometry
  rw [if_neg (by omega), if_neg (by omega)]
  simp only [hel, claimGeometry]
  have hcomm :
      ((element.valenceElectrons : ℚ) -
          ((bonds.filter (fun b => b.1 = central.id ∨ b.2 = central.id)).length : ℚ) * 2) =
        ((element.valenceElectrons : ℚ) -
          2 * ((bonds.filter (fun b => b.1 = central.id ∨ b.2 = central.id)).length : ℚ)) := by
    ring
  rw [hcomm]
  exact vseprChain_eq _ _

/-- C8 witness: the amended geometry theorem at a water-shaped component
(central oxygen, two bonds at the center). -/
theorem C8_witness :
    3 ≤ ([atomO3, atomH0, atomH1] : List Atom).length ∧
    CHEMICAL_ELEMENTS atomO3.protons = some elO ∧
    Engine.determineGeometry [atomO3, atomH0, atomH1] [(3, 0), (3, 1)] (some atomO3) =
      claimGeometry elO.valenceElectrons
        ((([(3, 0), (3, 1)] : List (ℕ × ℕ)).filter
          (fun b => b.1 = atomO3.id ∨ b.2 = atomO3.id)).length) :=
  ⟨by decide, rfl,
   C8_geometry_amended [atomO3, atomH0, atomH1] [(3, 0), (3, 1)] atomO3 elO (by decide) rfl⟩

